import Mathlib

/-!
Shallow embedding of the NoLine Smart Queue core (customer registration,
queue numbering, billing, QR credential codec, exit verification).

Each definition mirrors one function of the JavaScript source:
- `src/utils/qrCodeGenerator.js` : `generateQRCode` / `decodeQRData`
- `src/models/Customer.js` (unnamed part_000) : schema methods and
  `getNextQueueNumber`
- `src/models/Queue.js` : `complete`, `getPosition`
- `src/controllers/billingController.js` : `completeBilling`
- verification controller (unnamed part_002) : `verifyQRCode`
- queue controller : `getQueuePosition`

Mongoose documents become Lean structures; the Mongo collections become
lists; `findOne` becomes `List.find?`; `save` replaces the document with
the same primary key; each `new Date()` clock read is an explicit integer
parameter.  The `await` points of the Node event loop are the interleaving
points of the concurrency model: the `findOne` (read) of a request and its
subsequent `save` (commit) are separate steps between which other requests
may run.
-/

namespace NoLine

/-- JSON values, as produced by `JSON.parse` in `decodeQRData`.  Numbers are
modelled as integers (the only numeric payload field, `queueNumber`, is an
integer in every produced payload). -/
inductive Json where
  | str : String → Json
  | num : Int → Json
  | jbool : Bool → Json
  | jnull : Json
  | obj : List (String × Json) → Json

/-- Field access `parsedData.k` on a parsed JSON value: `none` models
JavaScript `undefined` (missing field or non-object receiver). -/
def Json.getField : Json → String → Option Json
  | .obj fields, k => (fields.find? (fun p => p.1 == k)).map (fun p => p.2)
  | _, _ => none

/-- JavaScript truthiness of a possibly-missing field value, as tested by
`!parsedData.customerId || !parsedData.queueNumber`. -/
def jsTruthy : Option Json → Bool
  | none => false
  | some .jnull => false
  | some (.jbool b) => b
  | some (.num n) => !(n == 0)
  | some (.str s) => !(s == "")
  | some (.obj _) => true

/-- Decimal-digit test of the regex class `\d`. -/
def isDigitCh (c : Char) : Bool :=
  decide ('0' ≤ c) && decide (c ≤ '9')

/-- The regex `^SM-\d+$` used by `decodeQRData` (and the Customer schema)
to validate a customer id: the literal prefix `SM-` followed by one or more
decimal digits, matched over the character sequence of the string. -/
def smMatch (s : String) : Bool :=
  match s.data with
  | 'S' :: 'M' :: '-' :: rest => !rest.isEmpty && rest.all isDigitCh
  | _ => false

/-- The decoded credential payload returned by `decodeQRData`: the
`customerId` and `queueNumber` fields destructured by the verification
controller, plus the `timestamp` field carried along in the parsed object. -/
structure QRPayload where
  customerId : String
  queueNumber : Int
  timestamp : Option Json

/-- The distinct failure conditions detected inside `decodeQRData` before
its catch-all: `JSON.parse` throwing, the missing-required-fields throw,
`.match` called on a truthy non-string id (a TypeError), the
id-format throw, and the queue-number throw. -/
inductive DecodeErr where
  | malformedPayload
  | missingFields
  | idTypeError
  | invalidIdFormat
  | invalidPosition
deriving DecidableEq, Repr

/-- Body of the `try` block of `decodeQRData` in
`src/utils/qrCodeGenerator.js` (lines 69-93).  The input is the result of
`JSON.parse` on the raw QR text: `none` when parsing throws.  Checks are
performed in source order: required-field truthiness, customer-id regex,
queue-number type and positivity. -/
def decodeInner (input : Option Json) : Except DecodeErr QRPayload :=
  match input with
  | none => .error .malformedPayload
  | some j =>
    if !(jsTruthy (j.getField "customerId") && jsTruthy (j.getField "queueNumber")) then
      .error .missingFields
    else
      match j.getField "customerId" with
      | some (.str s) =>
        if !(smMatch s) then .error .invalidIdFormat
        else
          match j.getField "queueNumber" with
          | some (.num n) =>
            if n < 1 then .error .invalidPosition
            else .ok { customerId := s, queueNumber := n, timestamp := j.getField "timestamp" }
          | _ => .error .invalidPosition
      | _ => .error .idTypeError

/-- The exported `decodeQRData`: the surrounding `catch` block replaces
every inner failure with the single generic error
`new Error` with the text `Invalid QR code format`. -/
def decodeQRData (input : Option Json) : Except String QRPayload :=
  match decodeInner input with
  | .ok p => .ok p
  | .error _ => .error "Invalid QR code format"

/-- The payload object built by `generateQRCode` (lines 30-35 of
`src/utils/qrCodeGenerator.js`): `JSON.stringify` of exactly the three
fields `customerId`, `queueNumber`, `timestamp` (the subsequent rendering
of this JSON text into a PNG data URL is the external `qrcode` library and
is inverted by the scanner before `decodeQRData` runs). -/
def encodeQRPayload (customerId : String) (queueNumber : Int) (timestamp : String) : Json :=
  .obj [("customerId", .str customerId),
        ("queueNumber", .num queueNumber),
        ("timestamp", .str timestamp)]

/-- Customer lifecycle status enum of the Customer schema. -/
inductive Status where
  | WAITING
  | BILLED
  | VERIFIED
deriving DecidableEq, Repr

/-- Queue slot status enum of the Queue schema. -/
inductive QStatus where
  | ACTIVE
  | COMPLETED
deriving DecidableEq, Repr

/-- A document of the Customer collection (`src/models/Customer.js`).
Timestamps are integers (milliseconds); `none` models the schema default
`null`. -/
structure Customer where
  customerId : String
  name : String
  phone : String
  cartTotal : Int
  queueNumber : Int
  status : Status
  billedAt : Option Int
  verifiedAt : Option Int
deriving DecidableEq, Repr

/-- A document of the Queue collection (`src/models/Queue.js`). -/
structure QueueSlot where
  queueNumber : Int
  customerId : String
  status : QStatus
  enteredAt : Int
  completedAt : Option Int
deriving DecidableEq, Repr

/-- The backing store: the two Mongo collections. -/
structure Store where
  customers : List Customer
  queues : List QueueSlot
deriving DecidableEq, Repr

/-- Embedding of `Customer.findOne({ customerId })`: first document with the given id. -/
def findOneCustomer (cs : List Customer) (id : String) : Option Customer :=
  cs.find? (fun c => c.customerId == id)

/-- A mongoose `save()` on a customer document: the stored document with
the same primary key is replaced by the in-memory one. -/
def saveCustomer (cs : List Customer) (c' : Customer) : List Customer :=
  cs.map (fun c => if c.customerId == c'.customerId then c' else c)

/-- A mongoose `save()` on a queue document, keyed by the unique
`queueNumber`. -/
def saveSlot (qs : List QueueSlot) (q' : QueueSlot) : List QueueSlot :=
  qs.map (fun q => if q.queueNumber == q'.queueNumber then q' else q)

/-- Embedding of `customerSchema.methods.markAsBilled` with the clock read
`new Date()` made an explicit parameter. -/
def markAsBilled (c : Customer) (now : Int) : Customer :=
  { c with status := .BILLED, billedAt := some now }

/-- Embedding of `customerSchema.methods.markAsVerified` with the clock read made
explicit. -/
def markAsVerified (c : Customer) (now : Int) : Customer :=
  { c with status := .VERIFIED, verifiedAt := some now }

/-- Embedding of `queueSchema.methods.complete` with its own, separate clock read. -/
def completeSlot (q : QueueSlot) (now : Int) : QueueSlot :=
  { q with status := .COMPLETED, completedAt := some now }

/-- Greatest `queueNumber` among the stored customers, i.e. the
`queueNumber` of the document returned by
`findOne().sort({ queueNumber: -1 })`; `none` when the collection is
empty.  No status filter is applied. -/
def maxQN : List Customer → Option Int
  | [] => none
  | c :: rest =>
    match maxQN rest with
    | none => some c.queueNumber
    | some m => some (max c.queueNumber m)

/-- Embedding of `customerSchema.statics.getNextQueueNumber` (part_000 lines 115-122):
`lastCustomer ? lastCustomer.queueNumber + 1 : 1`. -/
def getNextQueueNumber (cs : List Customer) : Int :=
  match maxQN cs with
  | none => 1
  | some m => m + 1

/-- Embedding of `Customer.create(...)`: a new document is appended to the collection. -/
def insertCustomer (cs : List Customer) (c : Customer) : List Customer :=
  cs ++ [c]

/-- Externally observable body of a `verifyQRCode` HTTP response: the HTTP
status code and the JSON fields the controller writes on each path
(absent fields are `none`). -/
structure VerifyResponse where
  httpStatus : Nat
  success : Bool
  message : String
  verification : Option String
  reason : Option String
  verifiedAt : Option Int
  currentStatus : Option Status
deriving DecidableEq, Repr

/-- Response of step 1 failure: `decodeQRData` threw (part_002 lines
51-57).  Note: no `verification` or `reason` field is written. -/
def invalidFormatResp : VerifyResponse :=
  { httpStatus := 400, success := false, message := "Invalid QR code format",
    verification := none, reason := none, verifiedAt := none, currentStatus := none }

/-- Response of step 2 failure: no customer with the decoded id
(part_002 lines 64-71). -/
def customerNotFoundResp : VerifyResponse :=
  { httpStatus := 404, success := false, message := "Customer not found",
    verification := some "FAILED", reason := some "INVALID_QR",
    verifiedAt := none, currentStatus := none }

/-- Response of step 3 failure: stored queue number differs from the
decoded one (lines 74-81). -/
def dataMismatchResp : VerifyResponse :=
  { httpStatus := 400, success := false, message := "QR code data mismatch",
    verification := some "FAILED", reason := some "DATA_MISMATCH",
    verifiedAt := none, currentStatus := none }

/-- Response of step 4 failure: already VERIFIED; carries the prior
`verifiedAt` (lines 84-97). -/
def duplicateScanResp (c : Customer) : VerifyResponse :=
  { httpStatus := 400, success := false, message := "QR code already used",
    verification := some "FAILED", reason := some "DUPLICATE_SCAN",
    verifiedAt := c.verifiedAt, currentStatus := none }

/-- Response of step 5 failure: not yet billed (lines 100-108). -/
def notBilledResp (c : Customer) : VerifyResponse :=
  { httpStatus := 400, success := false, message := "Customer has not been billed yet",
    verification := some "FAILED", reason := some "NOT_BILLED",
    verifiedAt := none, currentStatus := some c.status }

/-- Success response (lines 124-138), built from the in-memory document
after `markAsVerified` mutated it. -/
def verifySuccessResp (c' : Customer) : VerifyResponse :=
  { httpStatus := 200, success := true, message := "Verification successful",
    verification := some "SUCCESS", reason := none,
    verifiedAt := c'.verifiedAt, currentStatus := some c'.status }

/-- Step 2 of `verifyQRCode`: the `await Customer.findOne({ customerId })`
read.  In the event-loop model this read is a step of its own; between it
and the later writes other requests may run. -/
def verifyRead (s : Store) (id : String) : Option Customer :=
  findOneCustomer s.customers id

/-- Steps 2-5 of `verifyQRCode`: the checks performed on the in-memory
snapshot fetched by `verifyRead`.  Returns the failure response, or the
snapshot when verification should proceed.  Check order is the source
order: existence, queue-number match, already-verified, billed. -/
def verifyCheck (snap : Option Customer) (d : QRPayload) : Sum VerifyResponse Customer :=
  match snap with
  | none => .inl customerNotFoundResp
  | some c =>
    if c.queueNumber ≠ d.queueNumber then .inl dataMismatchResp
    else if c.status = .VERIFIED then .inl (duplicateScanResp c)
    else if c.status ≠ .BILLED then .inl (notBilledResp c)
    else .inr c

/-- Step 6 of `verifyQRCode`: `await customer.markAsVerified()` — one
`save()` with its own `new Date()` read `tVerify`.  Returns the mutated
in-memory document and the store after this single save. -/
def verifyWriteCustomer (c : Customer) (s : Store) (tVerify : Int) : Customer × Store :=
  let c' := markAsVerified c tVerify
  (c', { s with customers := saveCustomer s.customers c' })

/-- Step 7 of `verifyQRCode`: find the ACTIVE queue slot of the customer
and `complete()` it with a second, separate `new Date()` read `tComplete`;
when no ACTIVE slot exists this step silently does nothing. -/
def verifyWriteSlot (c : Customer) (s : Store) (tComplete : Int) : Store :=
  match s.queues.find? (fun q => q.customerId == c.customerId && q.status == QStatus.ACTIVE) with
  | some q => { s with queues := saveSlot s.queues (completeSlot q tComplete) }
  | none => s

/-- Commit phase of one `verifyQRCode` request: the snapshot checks
followed by the two sequential writes. -/
def verifyCommit (snap : Option Customer) (d : QRPayload) (s : Store)
    (tVerify tComplete : Int) : VerifyResponse × Store :=
  match verifyCheck snap d with
  | .inl r => (r, s)
  | .inr c =>
    let cs1 := verifyWriteCustomer c s tVerify
    let s2 := verifyWriteSlot cs1.1 cs1.2 tComplete
    (verifySuccessResp cs1.1, s2)

/-- The full sequential `verifyQRCode` handler (part_002 lines 36-149) on
a parsed request: decode, read, then commit, with no other request
interleaved.  `qr` is the `JSON.parse` result of the presented `qrData`
(`none` when parsing throws); `tVerify` and `tComplete` are the two clock
reads of steps 6 and 7. -/
def verifyQRCode (qr : Option Json) (s : Store) (tVerify tComplete : Int) :
    VerifyResponse × Store :=
  match decodeQRData qr with
  | .error _ => (invalidFormatResp, s)
  | .ok d => verifyCommit (verifyRead s d.customerId) d s tVerify tComplete

/-- Externally observable body of a `completeBilling` HTTP response. -/
structure BillingResponse where
  httpStatus : Nat
  success : Bool
  message : String
  status : Option Status
  billedAt : Option Int
deriving DecidableEq, Repr

/-- Billing response of the not-found path (billingController lines
34-39). -/
def billingNotFoundResp : BillingResponse :=
  { httpStatus := 404, success := false, message := "Customer not found",
    status := none, billedAt := none }

/-- Billing response of the already-verified path (lines 42-48). -/
def billingAlreadyVerifiedResp (c : Customer) : BillingResponse :=
  { httpStatus := 400, success := false,
    message := "Customer has already been verified and exited",
    status := some c.status, billedAt := none }

/-- Billing response of the idempotent already-billed path (lines 51-63). -/
def billingAlreadyBilledResp (c : Customer) : BillingResponse :=
  { httpStatus := 200, success := true, message := "Customer is already billed",
    status := some c.status, billedAt := c.billedAt }

/-- Billing success response (lines 68-78), built from the mutated
in-memory document. -/
def billingDoneResp (c' : Customer) : BillingResponse :=
  { httpStatus := 200, success := true, message := "Billing completed successfully",
    status := some c'.status, billedAt := c'.billedAt }

/-- Embedding of `completeBilling` from `src/controllers/billingController.js` (lines
27-88): 404 when absent, 400 when VERIFIED, no-op 200 when already
BILLED, otherwise `markAsBilled` (with clock read `now`) and 200. -/
def completeBilling (s : Store) (id : String) (now : Int) : BillingResponse × Store :=
  match findOneCustomer s.customers id with
  | none => (billingNotFoundResp, s)
  | some c =>
    if c.status = .VERIFIED then (billingAlreadyVerifiedResp c, s)
    else if c.status = .BILLED then (billingAlreadyBilledResp c, s)
    else
      let c' := markAsBilled c now
      (billingDoneResp c', { s with customers := saveCustomer s.customers c' })

/-- Result of the `getQueuePosition` handler of the queue controller:
404 when the customer is absent, the `position: null` sentinel when
already VERIFIED, otherwise the computed position. -/
inductive PositionResult where
  | notFound
  | verifiedSentinel
  | position (n : Nat)
deriving DecidableEq, Repr

/-- The `countDocuments` filter of `getQueuePosition`: status in
{WAITING, BILLED} and `queueNumber` strictly below that of the target. -/
def activeAhead (x : Customer) (q : Int) : Bool :=
  (x.status == Status.WAITING || x.status == Status.BILLED) && x.queueNumber < q

/-- Embedding of `getQueuePosition` from the queue controller (queueManager.js bundle
lines 260-313): find the customer, return the VERIFIED sentinel, or count
the active customers strictly ahead and add 1. -/
def getQueuePosition (s : Store) (id : String) : PositionResult :=
  match findOneCustomer s.customers id with
  | none => .notFound
  | some c =>
    if c.status = .VERIFIED then .verifiedSentinel
    else .position ((s.customers.filter (fun x => activeAhead x c.queueNumber)).length + 1)

/-! Concrete fixtures used by the theorems below. -/

/-- A customer in status BILLED, awaiting exit verification. -/
def billedCustomer : Customer :=
  { customerId := "SM-1001", name := "Amit Verma", phone := "9876543210",
    cartTotal := 1350, queueNumber := 1, status := .BILLED,
    billedAt := some 50, verifiedAt := none }

/-- A store holding `billedCustomer` and its ACTIVE queue slot. -/
def billedStore : Store :=
  { customers := [billedCustomer],
    queues := [{ queueNumber := 1, customerId := "SM-1001", status := .ACTIVE,
                 enteredAt := 10, completedAt := none }] }

/-- The decoded credential matching `billedCustomer`. -/
def billedPayload : QRPayload :=
  { customerId := "SM-1001", queueNumber := 1, timestamp := none }

/-- The parsed QR text of the credential held by `billedCustomer`. -/
def billedQR : Option Json :=
  some (encodeQRPayload "SM-1001" 1 "2026-01-24T10:00:00.000Z")

/-- A store whose only customer holds queue number 5. -/
def regStore0 : List Customer :=
  [{ customerId := "SM-1001", name := "Amit Verma", phone := "9876543210",
     cartTotal := 1350, queueNumber := 5, status := .WAITING,
     billedAt := none, verifiedAt := none }]

/-- A well-formed payload naming an id that is not in `billedStore`. -/
def absentPayload : Option Json :=
  some (.obj [("customerId", .str "SM-9999"), ("queueNumber", .num 7)])

/-- A payload whose customer id fails the `^SM-\d+$` pattern. -/
def badIdPayload : Option Json :=
  some (.obj [("customerId", .str "XX-12"), ("queueNumber", .num 3)])

/-- A customer already in the terminal VERIFIED status. -/
def verifiedCustomer : Customer :=
  { customerId := "SM-1008", name := "Anjali Sharma", phone := "9876543217",
    cartTotal := 2560, queueNumber := 8, status := .VERIFIED,
    billedAt := some 40, verifiedAt := some 90 }

/-- A store holding `verifiedCustomer` and its COMPLETED slot. -/
def verifiedStore : Store :=
  { customers := [verifiedCustomer],
    queues := [{ queueNumber := 8, customerId := "SM-1008", status := .COMPLETED,
                 enteredAt := 10, completedAt := some 90 }] }

/-- The parsed QR text of the credential held by `verifiedCustomer`. -/
def verifiedQR : Option Json :=
  some (encodeQRPayload "SM-1008" 8 "2026-01-24T09:30:00.000Z")

/-- A store with an active customer at queue number 2, an active customer
at queue number 5 and a verified customer at queue number 8. -/
def posStore : Store :=
  { customers :=
      [{ customerId := "SM-1001", name := "Amit Verma", phone := "9876543210",
         cartTotal := 1350, queueNumber := 2, status := .WAITING,
         billedAt := none, verifiedAt := none },
       { customerId := "SM-1002", name := "Neha Gupta", phone := "9876543211",
         cartTotal := 2899, queueNumber := 5, status := .BILLED,
         billedAt := some 20, verifiedAt := none },
       { customerId := "SM-1003", name := "Rahul Mehta", phone := "9876543212",
         cartTotal := 560, queueNumber := 8, status := .VERIFIED,
         billedAt := some 30, verifiedAt := some 60 }],
    queues := [] }

/-- A customer still in status WAITING, not yet billed. -/
def waitingCustomer : Customer :=
  { customerId := "SM-1003", name := "Rahul Mehta", phone := "9876543212",
    cartTotal := 560, queueNumber := 3, status := .WAITING,
    billedAt := none, verifiedAt := none }

/-- A store holding `waitingCustomer` and its ACTIVE slot. -/
def waitingStore : Store :=
  { customers := [waitingCustomer],
    queues := [{ queueNumber := 3, customerId := "SM-1003", status := .ACTIVE,
                 enteredAt := 5, completedAt := none }] }

/-- A mixed collection whose greatest queue number, 5, is held by a
VERIFIED customer. -/
def mixedCustomers : List Customer :=
  [{ customerId := "SM-1001", name := "Amit Verma", phone := "9876543210",
     cartTotal := 1350, queueNumber := 2, status := .WAITING,
     billedAt := none, verifiedAt := none },
   { customerId := "SM-1002", name := "Neha Gupta", phone := "9876543211",
     cartTotal := 2899, queueNumber := 5, status := .VERIFIED,
     billedAt := some 20, verifiedAt := some 70 }]

/-- C1: among N concurrent verify calls on the same BILLED credential,
exactly one is claimed to return SUCCESS.  In the event-loop interleaving
where both requests perform their `findOne` read before either performs
its `markAsVerified` save (read A, read B, commit A, commit B), both
calls observe status BILLED on their snapshots and both return SUCCESS;
the second save silently overwrites the first verification timestamp.
This refutes the exactly-once guarantee: the `findOne` / `save` pair of
`verifyQRCode` is not atomic. -/
theorem verify_race_double_success :
    (verifyCommit (verifyRead billedStore "SM-1001") billedPayload billedStore 100 100).1.verification
      = some "SUCCESS"
    ∧ (verifyCommit (verifyRead billedStore "SM-1001") billedPayload
        (verifyCommit (verifyRead billedStore "SM-1001") billedPayload billedStore 100 100).2
        200 200).1.verification = some "SUCCESS"
    ∧ ((verifyCommit (verifyRead billedStore "SM-1001") billedPayload
        (verifyCommit (verifyRead billedStore "SM-1001") billedPayload billedStore 100 100).2
        200 200).2.customers.map Customer.verifiedAt) = [some 200] := by
  decide

/-- C3: the Entry update and the QueueSlot completion are claimed to be
applied atomically with the same timestamp.  In the code they are two
separate `save()` calls with two separate `new Date()` reads: after step 6
(an `await` boundary at which other requests run) the customer is already
VERIFIED while its slot is still ACTIVE, and in the completed run the
`completedAt` of the slot (second clock read, here 101) differs from the
`verifiedAt` of the entry (first clock read, here 100). -/
theorem verify_entry_slot_nonatomic :
    ((findOneCustomer (verifyWriteCustomer billedCustomer billedStore 100).2.customers
        "SM-1001").map Customer.status = some Status.VERIFIED
      ∧ ((verifyWriteCustomer billedCustomer billedStore 100).2.queues.find?
          (fun q => q.customerId == "SM-1001")).map QueueSlot.status = some QStatus.ACTIVE)
    ∧ ((findOneCustomer (verifyQRCode billedQR billedStore 100 101).2.customers
          "SM-1001").bind Customer.verifiedAt = some 100
        ∧ ((verifyQRCode billedQR billedStore 100 101).2.queues.find?
            (fun q => q.customerId == "SM-1001")).bind QueueSlot.completedAt = some 101) := by
  decide

/-- C4: positions are claimed to be pairwise distinct, handed out by an
atomic increment of a shared counter.  `getNextQueueNumber` instead scans
the collection for the maximum: when two registrations both execute the
scan before either inserts its document (read A, read B, insert A,
insert B), both receive 6 and the store ends up holding two customers
with queue number 6. -/
theorem queue_number_race_duplicate :
    getNextQueueNumber regStore0 = 6
    ∧ getNextQueueNumber regStore0 = getNextQueueNumber regStore0
    ∧ ((insertCustomer
          (insertCustomer regStore0
            { customerId := "SM-1002", name := "Neha Gupta", phone := "9876543211",
              cartTotal := 2899, queueNumber := getNextQueueNumber regStore0,
              status := .WAITING, billedAt := none, verifiedAt := none })
          { customerId := "SM-1003", name := "Rahul Mehta", phone := "9876543212",
            cartTotal := 560, queueNumber := getNextQueueNumber regStore0,
            status := .WAITING, billedAt := none, verifiedAt := none }).filter
        (fun c => c.queueNumber == 6)).length = 2 := by
  decide

/-- C7 counterexample: the claim says decode fails with the distinct error
MalformedPayload for unparsable structure and InvalidIdentifierFormat for a
bad id pattern, each failure carrying its specific reason.  The catch-all
of `decodeQRData` collapses both internally distinct conditions
(`decodeInner` classifies them differently) into the identical generic
error `Invalid QR code format`, so the externally observable failures are
not distinct. -/
theorem decode_errors_not_distinct :
    decodeQRData badIdPayload = .error "Invalid QR code format"
    ∧ decodeQRData none = .error "Invalid QR code format"
    ∧ decodeQRData badIdPayload = decodeQRData none
    ∧ decodeInner badIdPayload = .error .invalidIdFormat
    ∧ decodeInner none = .error .malformedPayload :=
  ⟨rfl, rfl, rfl, rfl, rfl⟩

/-- C9 counterexample: the claim says the verify response for a customer
not found is identical to the response for a decode failure.  On
`billedStore`, an unparsable payload yields HTTP 400 with message
`Invalid QR code format` and no verification or reason field, while a
well-formed payload for the absent id SM-9999 yields HTTP 404 with message
`Customer not found` and reason INVALID_QR: the two responses differ, so
the external signal does reveal whether the decoded id exists. -/
theorem absent_vs_decode_failure_differ :
    (verifyQRCode none billedStore 0 0).1 = invalidFormatResp
    ∧ (verifyQRCode absentPayload billedStore 0 0).1 = customerNotFoundResp
    ∧ invalidFormatResp ≠ customerNotFoundResp :=
  ⟨rfl, rfl, by decide⟩

/-- C2: a verify call presenting the matching credential of a VERIFIED
entry returns the DUPLICATE_SCAN failure (HTTP 400, FAILED, reason
DUPLICATE_SCAN) carrying the prior `verifiedAt`, and leaves the whole
store — in particular the entry — unchanged. -/
theorem verify_duplicate_scan (qr : Option Json) (s : Store) (t₁ t₂ : Int)
    (d : QRPayload) (c : Customer)
    (hdec : decodeQRData qr = .ok d)
    (hfind : findOneCustomer s.customers d.customerId = some c)
    (hqn : c.queueNumber = d.queueNumber)
    (hst : c.status = .VERIFIED) :
    verifyQRCode qr s t₁ t₂ = (duplicateScanResp c, s)
    ∧ (duplicateScanResp c).verification = some "FAILED"
    ∧ (duplicateScanResp c).reason = some "DUPLICATE_SCAN"
    ∧ (duplicateScanResp c).verifiedAt = c.verifiedAt
    ∧ (duplicateScanResp c).success = false := by
  refine ⟨?_, rfl, rfl, rfl, rfl⟩
  simp only [verifyQRCode, hdec, verifyCommit, verifyRead, hfind, verifyCheck]
  simp [hqn, hst]

/-- Witness for `verify_duplicate_scan`: replaying the credential of the
already-verified SM-1008 is rejected with DUPLICATE_SCAN, reporting the
prior verification time 90, and the store is untouched. -/
theorem verify_duplicate_scan_witness :
    verifyQRCode verifiedQR verifiedStore 5 6 = (duplicateScanResp verifiedCustomer, verifiedStore)
    ∧ (duplicateScanResp verifiedCustomer).verifiedAt = some 90 := by
  have h := verify_duplicate_scan verifiedQR verifiedStore 5 6
    { customerId := "SM-1008", queueNumber := 8,
      timestamp := some (.str "2026-01-24T09:30:00.000Z") }
    verifiedCustomer rfl rfl rfl rfl
  exact ⟨h.1, rfl⟩

/-- C5: the queue-position query returns NotFound when no customer has
the id, the `position: null` sentinel when the customer is VERIFIED, and
otherwise 1 + the count of customers with status in {WAITING, BILLED}
and a strictly smaller queue number; in particular the active customer
with the smallest queue number gets position 1. -/
theorem getQueuePosition_spec :
    (∀ s id, findOneCustomer s.customers id = none →
      getQueuePosition s id = .notFound)
    ∧ (∀ s id c, findOneCustomer s.customers id = some c → c.status = .VERIFIED →
        getQueuePosition s id = .verifiedSentinel)
    ∧ (∀ s id c, findOneCustomer s.customers id = some c →
        (c.status = .WAITING ∨ c.status = .BILLED) →
        getQueuePosition s id =
          .position (1 + s.customers.countP (fun x => activeAhead x c.queueNumber)))
    ∧ (∀ s id c, findOneCustomer s.customers id = some c →
        (c.status = .WAITING ∨ c.status = .BILLED) →
        (∀ x ∈ s.customers, (x.status = .WAITING ∨ x.status = .BILLED) →
          c.queueNumber ≤ x.queueNumber) →
        getQueuePosition s id = .position 1) := by
  have hcount : ∀ s (c : Customer), (s : Store).customers.countP (fun x => activeAhead x c.queueNumber)
      = (s.customers.filter (fun x => activeAhead x c.queueNumber)).length := by
    intro s c
    exact List.countP_eq_length_filter _ _
  have hver : ∀ (c : Customer), (c.status = .WAITING ∨ c.status = .BILLED) →
      ¬ c.status = Status.VERIFIED := by
    rintro c (h | h) hv <;> rw [h] at hv <;> cases hv
  refine ⟨?_, ?_, ?_, ?_⟩
  · intro s id h
    simp only [getQueuePosition, h]
  · intro s id c h hv
    simp only [getQueuePosition, h, hv, if_pos]
  · intro s id c h hact
    simp only [getQueuePosition, h, hver c hact, if_false, hcount s c]
    rw [Nat.add_comm]
  · intro s id c h hact hmin
    have hnil : s.customers.filter (fun x => activeAhead x c.queueNumber) = [] := by
      refine List.filter_eq_nil_iff.mpr ?_
      intro x hx
      simp only [activeAhead, Bool.and_eq_true, Bool.or_eq_true, beq_iff_eq,
        decide_eq_true_eq, not_and, not_lt]
      intro hxact
      exact hmin x hx hxact
    simp only [getQueuePosition, h, hver c hact, if_false, hnil]
    rfl

/-- Witness for `getQueuePosition_spec` on `posStore`: the billed customer
at queue number 5 has one active customer ahead and gets position 2, the
active customer with the smallest queue number gets position 1, the
verified customer gets the sentinel, and an unknown id is NotFound. -/
theorem getQueuePosition_spec_witness :
    getQueuePosition posStore "SM-1002" = .position 2
    ∧ getQueuePosition posStore "SM-1001" = .position 1
    ∧ getQueuePosition posStore "SM-1003" = .verifiedSentinel
    ∧ getQueuePosition posStore "SM-9999" = .notFound := by
  have h := getQueuePosition_spec
  refine ⟨?_, ?_, ?_, ?_⟩
  · have h2 := h.2.2.1 posStore "SM-1002"
      { customerId := "SM-1002", name := "Neha Gupta", phone := "9876543211",
        cartTotal := 2899, queueNumber := 5, status := .BILLED,
        billedAt := some 20, verifiedAt := none } (by decide) (Or.inr rfl)
    rw [h2]
    decide
  · exact h.2.2.2 posStore "SM-1001"
      { customerId := "SM-1001", name := "Amit Verma", phone := "9876543210",
        cartTotal := 1350, queueNumber := 2, status := .WAITING,
        billedAt := none, verifiedAt := none } (by decide) (Or.inl rfl) (by decide)
  · exact h.2.1 posStore "SM-1003"
      { customerId := "SM-1003", name := "Rahul Mehta", phone := "9876543212",
        cartTotal := 560, queueNumber := 8, status := .VERIFIED,
        billedAt := some 30, verifiedAt := some 60 } (by decide) rfl
  · exact h.1 posStore "SM-9999" (by decide)

/-- An id matching `^SM-\d+$` is nonempty (it starts with the literal
prefix `SM-`). -/
theorem smMatch_ne_empty (s : String) (h : smMatch s = true) : s ≠ "" := by
  intro he
  subst he
  simp [smMatch] at h

/-- C6: decoding the payload produced by encoding (id, pos, t) yields back
exactly those three values, for every id matching the required pattern,
positive integer pos and timestamp t; the encoded payload is an object
carrying exactly the three fields customerId, queueNumber, timestamp. -/
theorem qr_roundtrip (id : String) (pos : Int) (t : String)
    (hid : smMatch id = true) (hpos : 1 ≤ pos) :
    decodeQRData (some (encodeQRPayload id pos t)) =
      .ok { customerId := id, queueNumber := pos, timestamp := some (.str t) }
    ∧ decodeInner (some (encodeQRPayload id pos t)) =
      .ok { customerId := id, queueNumber := pos, timestamp := some (.str t) }
    ∧ encodeQRPayload id pos t =
      .obj [("customerId", .str id), ("queueNumber", .num pos), ("timestamp", .str t)] := by
  have h1 : (encodeQRPayload id pos t).getField "customerId" = some (.str id) := rfl
  have h2 : (encodeQRPayload id pos t).getField "queueNumber" = some (.num pos) := rfl
  have h3 : (encodeQRPayload id pos t).getField "timestamp" = some (.str t) := rfl
  have hne : id ≠ "" := smMatch_ne_empty id hid
  have hnz : ¬ (pos == 0) = true := by
    simp only [beq_iff_eq]
    omega
  have hlt : ¬ pos < 1 := by omega
  have hinner : decodeInner (some (encodeQRPayload id pos t)) =
      .ok { customerId := id, queueNumber := pos, timestamp := some (.str t) } := by
    simp only [decodeInner, h1, h2, h3, jsTruthy, hid]
    simp [hne, hnz, hlt]
  refine ⟨?_, hinner, rfl⟩
  simp only [decodeQRData, hinner]

/-- Witness for `qr_roundtrip` at the concrete credential of SM-1001,
queue number 1, issued at a fixed timestamp. -/
theorem qr_roundtrip_witness :
    smMatch "SM-1001" = true
    ∧ (1 : Int) ≤ 1
    ∧ decodeQRData (some (encodeQRPayload "SM-1001" 1 "2026-01-24T09:00:00.000Z")) =
        .ok { customerId := "SM-1001", queueNumber := 1,
              timestamp := some (.str "2026-01-24T09:00:00.000Z") } :=
  ⟨by decide, by decide,
   (qr_roundtrip "SM-1001" 1 "2026-01-24T09:00:00.000Z" (by decide) (by decide)).1⟩

/-- C7 amended: `decodeQRData` distinguishes the malformed-payload,
invalid-id-format and invalid-position conditions internally (in source
order), but its catch-all surfaces every failure as the single generic
error `Invalid QR code format`; decode is a pure function of the payload
and never consults the store. -/
theorem decode_failure_taxonomy :
    (∀ j e, decodeInner j = .error e →
      decodeQRData j = .error "Invalid QR code format")
    ∧ decodeInner none = .error .malformedPayload
    ∧ (∀ s n, smMatch s = false → s ≠ "" → ¬ ((n : Int) == 0) = true →
        decodeInner (some (.obj [("customerId", Json.str s), ("queueNumber", Json.num n)]))
          = .error .invalidIdFormat)
    ∧ (∀ s n, smMatch s = true → (n : Int) < 1 → ¬ (n == 0) = true →
        decodeInner (some (.obj [("customerId", Json.str s), ("queueNumber", Json.num n)]))
          = .error .invalidPosition) := by
  refine ⟨?_, rfl, ?_, ?_⟩
  · intro j e h
    simp only [decodeQRData, h]
  · intro s n hs hne hnz
    have h1 : (Json.obj [("customerId", Json.str s), ("queueNumber", Json.num n)]).getField
        "customerId" = some (.str s) := rfl
    have h2 : (Json.obj [("customerId", Json.str s), ("queueNumber", Json.num n)]).getField
        "queueNumber" = some (.num n) := rfl
    simp only [decodeInner, h1, h2, jsTruthy, hs]
    simp [hne, hnz]
  · intro s n hs hlt hnz
    have h1 : (Json.obj [("customerId", Json.str s), ("queueNumber", Json.num n)]).getField
        "customerId" = some (.str s) := rfl
    have h2 : (Json.obj [("customerId", Json.str s), ("queueNumber", Json.num n)]).getField
        "queueNumber" = some (.num n) := rfl
    have hne : s ≠ "" := smMatch_ne_empty s hs
    simp only [decodeInner, h1, h2, jsTruthy, hs]
    simp [hne, hnz, hlt]

/-- Witness for `decode_failure_taxonomy`: a payload with the
nonconforming id XX-12 is internally classified InvalidIdFormat and
externally reported with the same generic error as an unparsable payload. -/
theorem decode_failure_taxonomy_witness :
    decodeInner (some (.obj [("customerId", Json.str "XX-12"), ("queueNumber", Json.num 3)]))
      = .error .invalidIdFormat
    ∧ decodeQRData (some (.obj [("customerId", Json.str "XX-12"), ("queueNumber", Json.num 3)]))
      = .error "Invalid QR code format"
    ∧ decodeQRData none = .error "Invalid QR code format" := by
  have h := decode_failure_taxonomy
  have hin := h.2.2.1 "XX-12" 3 (by decide) (by decide) (by decide)
  exact ⟨hin, h.1 _ _ hin, h.1 none .malformedPayload h.2.1⟩

/-- Saving a document with the key under which `findOne` succeeded makes
the next `findOne` under that key return the saved document. -/
theorem findOne_save (cs : List Customer) (id : String) (c c' : Customer)
    (hid : c'.customerId = c.customerId)
    (h : findOneCustomer cs id = some c) :
    findOneCustomer (saveCustomer cs c') id = some c' := by
  have hcid : c.customerId = id := by
    have hp := List.find?_some h
    exact beq_iff_eq.mp hp
  induction cs with
  | nil => simp [findOneCustomer] at h
  | cons a l ih =>
    have hsave : saveCustomer (a :: l) c' =
        (if a.customerId == c'.customerId then c' else a) :: saveCustomer l c' := rfl
    by_cases hb : (a.customerId == id) = true
    · have hfa : findOneCustomer (a :: l) id = some a := by
        unfold findOneCustomer
        exact List.find?_cons_of_pos _ hb
      have hac : a = c := Option.some.inj (hfa.symm.trans h)
      have hheadeq : (a.customerId == c'.customerId) = true := by
        rw [hid, ← hac]
        exact beq_iff_eq.mpr rfl
      have hc'id : (c'.customerId == id) = true := by
        rw [hid, hcid]
        exact beq_iff_eq.mpr rfl
      rw [hsave, if_pos hheadeq]
      unfold findOneCustomer
      exact List.find?_cons_of_pos _ hc'id
    · have hl : findOneCustomer l id = some c := by
        unfold findOneCustomer at h ⊢
        rw [List.find?_cons_of_neg (p := fun x : Customer => x.customerId == id) _ hb] at h
        exact h
      have hbneg : ¬ (a.customerId == c'.customerId) = true := by
        rw [hid, hcid]
        exact hb
      rw [hsave, if_neg hbneg]
      unfold findOneCustomer
      rw [List.find?_cons_of_neg (p := fun x : Customer => x.customerId == id) _ hb]
      exact ih hl

/-- C8: billing is idempotent.  On a WAITING customer `completeBilling`
sets status BILLED with billedAt = now and saves; a second call is a
successful no-op returning the billedAt of the first call and leaving the
store exactly as after the first call; an unknown id fails with the 404
not-found response; a VERIFIED customer fails with the 400
already-verified response, in both cases without touching the store. -/
theorem completeBilling_spec :
    (∀ s id t, findOneCustomer s.customers id = none →
      completeBilling s id t = (billingNotFoundResp, s))
    ∧ (∀ s id t c, findOneCustomer s.customers id = some c → c.status = .VERIFIED →
        completeBilling s id t = (billingAlreadyVerifiedResp c, s))
    ∧ (∀ s id t c, findOneCustomer s.customers id = some c → c.status = .WAITING →
        completeBilling s id t =
          (billingDoneResp (markAsBilled c t),
           { s with customers := saveCustomer s.customers (markAsBilled c t) }))
    ∧ (∀ s id t₁ t₂ c, findOneCustomer s.customers id = some c → c.status = .WAITING →
        completeBilling (completeBilling s id t₁).2 id t₂ =
          (billingAlreadyBilledResp (markAsBilled c t₁), (completeBilling s id t₁).2)
        ∧ (billingAlreadyBilledResp (markAsBilled c t₁)).success = true
        ∧ (billingAlreadyBilledResp (markAsBilled c t₁)).httpStatus = 200
        ∧ (billingAlreadyBilledResp (markAsBilled c t₁)).billedAt = some t₁) := by
  have habs : ∀ s id t, findOneCustomer (s : Store).customers id = none →
      completeBilling s id t = (billingNotFoundResp, s) := by
    intro s id t h
    simp only [completeBilling, h]
  have hverify : ∀ s id t c, findOneCustomer (s : Store).customers id = some c →
      c.status = .VERIFIED → completeBilling s id t = (billingAlreadyVerifiedResp c, s) := by
    intro s id t c h hv
    simp only [completeBilling, h, hv, if_pos]
  have hwait : ∀ s id t c, findOneCustomer (s : Store).customers id = some c →
      c.status = .WAITING → completeBilling s id t =
        (billingDoneResp (markAsBilled c t),
         { s with customers := saveCustomer s.customers (markAsBilled c t) }) := by
    intro s id t c h hw
    simp only [completeBilling, h, hw]
    rfl
  have hbilled : ∀ s id t c, findOneCustomer (s : Store).customers id = some c →
      c.status = .BILLED → completeBilling s id t = (billingAlreadyBilledResp c, s) := by
    intro s id t c h hb
    simp only [completeBilling, h, hb]
    rfl
  refine ⟨habs, hverify, hwait, ?_⟩
  intro s id t₁ t₂ c h hw
  have hfirst := hwait s id t₁ c h hw
  have hid : (markAsBilled c t₁).customerId = c.customerId := rfl
  have hfind2 : findOneCustomer (completeBilling s id t₁).2.customers id
      = some (markAsBilled c t₁) := by
    rw [hfirst]
    exact findOne_save s.customers id c (markAsBilled c t₁) hid h
  exact ⟨hbilled (completeBilling s id t₁).2 id t₂ (markAsBilled c t₁) hfind2 rfl,
         rfl, rfl, rfl⟩

/-- Witness for `completeBilling_spec`: billing the WAITING customer
SM-1003 at time 100 makes it BILLED with billedAt 100; billing it again
at time 200 is a successful no-op that keeps billedAt = 100 and leaves
the store unchanged. -/
theorem completeBilling_spec_witness :
    completeBilling waitingStore "SM-1003" 100 =
      (billingDoneResp (markAsBilled waitingCustomer 100),
       { waitingStore with
         customers := saveCustomer waitingStore.customers (markAsBilled waitingCustomer 100) })
    ∧ completeBilling (completeBilling waitingStore "SM-1003" 100).2 "SM-1003" 200 =
      (billingAlreadyBilledResp (markAsBilled waitingCustomer 100),
       (completeBilling waitingStore "SM-1003" 100).2)
    ∧ (billingAlreadyBilledResp (markAsBilled waitingCustomer 100)).billedAt = some 100 := by
  have h := completeBilling_spec
  have h3 := h.2.2.1 waitingStore "SM-1003" 100 waitingCustomer (by decide) rfl
  have h4 := h.2.2.2 waitingStore "SM-1003" 100 200 waitingCustomer (by decide) rfl
  exact ⟨h3, h4.1, h4.2.2.2⟩

/-- C9 amended: when decoding fails, verify returns HTTP 400 with message
`Invalid QR code format` and no verification or reason field; when the
decoded id has no customer, it returns HTTP 404 with message
`Customer not found` and reason INVALID_QR.  The two responses are not
equal, so the external signal distinguishes a decode failure from an
absent id (revealing whether the id exists), contrary to the original
claim; in both cases the store is untouched. -/
theorem verify_absent_vs_decode_responses (s : Store) (t₁ t₂ : Int) :
    (∀ qr e, decodeQRData qr = .error e →
      verifyQRCode qr s t₁ t₂ = (invalidFormatResp, s))
    ∧ (∀ qr d, decodeQRData qr = .ok d →
        findOneCustomer s.customers d.customerId = none →
        verifyQRCode qr s t₁ t₂ = (customerNotFoundResp, s))
    ∧ invalidFormatResp ≠ customerNotFoundResp := by
  refine ⟨?_, ?_, by decide⟩
  · intro qr e h
    simp only [verifyQRCode, h]
  · intro qr d h habs
    simp only [verifyQRCode, h, verifyCommit, verifyRead, habs, verifyCheck]

/-- Witness for `verify_absent_vs_decode_responses` on `billedStore`: an
unparsable payload gets the generic 400 response and a well-formed payload
for the absent SM-9999 gets the 404 not-found response. -/
theorem verify_absent_vs_decode_responses_witness :
    verifyQRCode none billedStore 1 2 = (invalidFormatResp, billedStore)
    ∧ verifyQRCode absentPayload billedStore 1 2 = (customerNotFoundResp, billedStore) := by
  have h := verify_absent_vs_decode_responses billedStore 1 2
  exact ⟨h.1 none "Invalid QR code format" rfl,
         h.2.1 absentPayload
           { customerId := "SM-9999", queueNumber := 7, timestamp := none } rfl rfl⟩

/-- C10: on an empty collection the allocator returns 1; otherwise the
scan finds the greatest stored queue number m — over all customers, with
no status filter, so VERIFIED ones count — and the allocator returns
m + 1. -/
theorem getNextQueueNumber_spec :
    getNextQueueNumber [] = 1
    ∧ (∀ cs : List Customer, cs ≠ [] → ∃ m, maxQN cs = some m)
    ∧ (∀ (cs : List Customer) (m : Int), maxQN cs = some m →
        m ∈ cs.map Customer.queueNumber
        ∧ (∀ c ∈ cs, c.queueNumber ≤ m)
        ∧ getNextQueueNumber cs = m + 1) := by
  refine ⟨rfl, ?_, ?_⟩
  · intro cs h
    cases cs with
    | nil => exact absurd rfl h
    | cons a l =>
      cases hm : maxQN l with
      | none => exact ⟨a.queueNumber, by simp [maxQN, hm]⟩
      | some m => exact ⟨max a.queueNumber m, by simp [maxQN, hm]⟩
  · intro cs
    induction cs with
    | nil => intro m hm; simp [maxQN] at hm
    | cons a l ih =>
      intro m hm
      cases hml : maxQN l with
      | none =>
        have hl : l = [] := by
          cases l with
          | nil => rfl
          | cons b r =>
            exfalso
            cases hr : maxQN r <;> simp [maxQN, hr] at hml
        subst hl
        simp only [maxQN] at hm
        have hma : m = a.queueNumber := (Option.some.inj hm).symm
        subst hma
        refine ⟨by simp, ?_, by simp [getNextQueueNumber, maxQN]⟩
        intro c hc
        rcases List.mem_singleton.mp hc with h
        rw [h]
      | some m' =>
        have hml' := ih m' hml
        simp only [maxQN, hml] at hm
        have hmm : m = max a.queueNumber m' := (Option.some.inj hm).symm
        subst hmm
        refine ⟨?_, ?_, ?_⟩
        · rcases max_choice a.queueNumber m' with hmax | hmax <;> rw [hmax]
          · simp
          · simp only [List.map_cons, List.mem_cons]
            exact Or.inr hml'.1
        · intro c hc
          rcases List.mem_cons.mp hc with hce | hcl
          · rw [hce]
            exact le_max_left _ _
          · exact le_trans (hml'.2.1 c hcl) (le_max_right _ _)
        · simp [getNextQueueNumber, maxQN, hml]

/-- Witness for `getNextQueueNumber_spec` on `mixedCustomers`: the
greatest stored queue number is 5, held by a VERIFIED customer, and the
allocator returns 6. -/
theorem getNextQueueNumber_spec_witness :
    maxQN mixedCustomers = some 5
    ∧ getNextQueueNumber mixedCustomers = 6
    ∧ (5 : Int) ∈ mixedCustomers.map Customer.queueNumber := by
  have h := (getNextQueueNumber_spec.2.2) mixedCustomers 5 (by decide)
  exact ⟨by decide, h.2.2, h.1⟩

end NoLine
